import Mathlib

/-!
Shallow embedding of the letterbox-sensor firmware (two Arduino sketches:
a calibration sketch and a deployed LoRa sensor node).

Pure data (payload bytes, threshold comparison) is embedded as Lean
functions on `Nat`, with the AVR 16-bit `unsigned int` modelled by explicit
`% 65536` where the source's arithmetic can overflow, and `uint8_t`
assignment by `% 256`.  Pin writes, delays and ADC reads performed by
`checkLetter` are embedded as an explicit event trace; the stream of
`analogRead` results is a function `Nat → Nat` giving the value of the
i-th read.  The main `loop` of the deployed sketch is embedded as a step
function on the frame counter, driven per wake cycle by the scheduler's
`checkAction` result and the cycle's external inputs.
-/

/-- Side effects performed by `checkLetter`: a digital pin write, a busy
delay of some milliseconds, or an `analogRead` of the sensor pin. -/
inductive Ev where
  | write (pin : Nat) (high : Bool)
  | wait (ms : Nat)
  | adcRead
  deriving DecidableEq, Repr

/-- Pin of the IR emitter LED (`#define irled 3`, both sketches). -/
def irled : Nat := 3

/-- Power pin of the IR detector diode (`#define irdiode 7`, both sketches). -/
def irdiode : Nat := 7

/-- The threshold comparison `measure > THRESHOLD` shared by
`letterbox_sensor/src/main.cpp` line 65 and `calibrate/src/main.cpp`
line 77. -/
def classify (m t : Nat) : Bool := decide (m > t)

/-- The sampling `for` loop of `checkLetter`:
`for(int i=0;i<3;i++){ delay(d); measure += analogRead(irsens); }`.
`n` is the number of remaining iterations, `i` the loop index, `acc`
the 16-bit accumulator `measure`; `adc i` is the result of the i-th
`analogRead`.  Returns the event trace and the final accumulator. -/
def sampleSteps (d : Nat) (adc : Nat → Nat) : Nat → Nat → Nat → List Ev × Nat
  | 0, _, acc => ([], acc)
  | n + 1, i, acc =>
    let r := sampleSteps d adc n (i + 1) ((acc + adc i) % 65536)
    (Ev.wait d :: Ev.adcRead :: r.1, r.2)

namespace calibrate

/-- `#define THRESHOLD 15` in `calibrate/src/main.cpp`. -/
def THRESHOLD : Nat := 15

/-- `checkLetter` of `calibrate/src/main.cpp` (lines 61-82): drive both
pins high, take 3 readings each preceded by `delay(15)`, drive both pins
low, divide by 3 and compare against the threshold. -/
def checkLetter (adc : Nat → Nat) : List Ev × Bool :=
  let s := sampleSteps 15 adc 3 0 0
  ([Ev.write irled true, Ev.write irdiode true] ++ s.1
     ++ [Ev.write irled false, Ev.write irdiode false],
   classify (s.2 / 3) THRESHOLD)

end calibrate

namespace letterbox

/-- `#define THRESHOLD 30` in `letterbox_sensor/src/main.cpp`. -/
def THRESHOLD : Nat := 30

/-- `checkLetter` of `letterbox_sensor/src/main.cpp` (lines 107-122):
drive both pins high, `delay(25)`, take 3 readings each preceded by
`delay(25)`, drive both pins low, return the truncated mean. -/
def checkLetter (adc : Nat → Nat) : List Ev × Nat :=
  let s := sampleSteps 25 adc 3 0 0
  ([Ev.write irled true, Ev.write irdiode true] ++ (Ev.wait 25 :: s.1)
     ++ [Ev.write irled false, Ev.write irdiode false],
   s.2 / 3)

end letterbox

/-- Payload construction of `loop` (`letterbox_sensor/src/main.cpp` lines
60-81): a 7-slot `uint8_t Data[7]` filled by indexed assignment.  The
event flag is a parameter (the loop passes `classify measure THRESHOLD`);
voltage and measurement are split little-endian (`& 0xFF`, `>> 8`, on
16-bit unsigned values these agree with `% 256` and `/ 256 % 256` for
every `Nat`); threshold and temperature are truncated by the `uint8_t`
assignment. -/
def buildData (flag : Bool) (vol measure threshold temp : Nat) : List Nat :=
  (((((((List.replicate 7 0).set 0 (if flag then 0xFF else 0x00)).set 1
    (vol % 256)).set 2 (vol / 256 % 256)).set 3 (measure % 256)).set 4
    (measure / 256 % 256)).set 5 (threshold % 256)).set 6 (temp % 256)

/-- The payload the deployed `loop` transmits on an action cycle, given
the cycle's ADC stream, battery voltage and radio temperature reading. -/
def txData (adc : Nat → Nat) (vol temp : Nat) : List Nat :=
  buildData (classify (letterbox.checkLetter adc).2 letterbox.THRESHOLD)
    vol (letterbox.checkLetter adc).2 letterbox.THRESHOLD temp

/-- `unsigned int Frame_Counter_Tx = 0x0000;`
(`letterbox_sensor/src/main.cpp` line 37). -/
def Frame_Counter_Tx_init : Nat := 0x0000

/-- External inputs of one wake cycle of the deployed `loop`: the result
of `at.checkAction()`, the ADC stream, `at.getVoltage()` and
`rfm.RFM_Temp()`. -/
structure CycleIn where
  actionDue : Bool
  adc : Nat → Nat
  vol : Nat
  temp : Nat

/-- Observable output of one wake cycle: the transmission handed to
`lora.Send_Data` (payload and the frame counter value used), if any, and
the sampler's event trace (empty when no sampling happened). -/
structure CycleOut where
  tx : Option (List Nat × Nat)
  evs : List Ev
  deriving DecidableEq, Repr

/-- One iteration of the deployed `loop` (`letterbox_sensor/src/main.cpp`
lines 56-99) acting on the frame counter: if `at.checkAction()` holds,
sample, build the payload, send it with the current counter and increment
the counter (16-bit, so mod 65536); otherwise do nothing.  The sleep
re-arm (`setSleeptime`, `gotoSleep`) touches no modelled state. -/
def loopStep (c : CycleIn) (fc : Nat) : Nat × CycleOut :=
  if c.actionDue then
    ((fc + 1) % 65536,
     ⟨some (txData c.adc c.vol c.temp, fc), (letterbox.checkLetter c.adc).1⟩)
  else
    (fc, ⟨none, []⟩)

/-- Run the deployed `loop` over a sequence of wake cycles, threading the
frame counter and collecting each cycle's output. -/
def runCycles : List CycleIn → Nat → Nat × List CycleOut
  | [], fc => (fc, [])
  | c :: cs, fc =>
    let s := loopStep c fc
    let r := runCycles cs s.1
    (r.1, s.2 :: r.2)

/-- Pin-state semantics of an event trace: fold the digital writes over a
pin-state map (true = HIGH). -/
def runEvs : List Ev → (Nat → Bool) → (Nat → Bool)
  | [], s => s
  | Ev.write p b :: evs, s => runEvs evs (fun q => if q = p then b else s q)
  | Ev.wait _ :: evs, s => runEvs evs s
  | Ev.adcRead :: evs, s => runEvs evs s

/-- `highDuringReads p evs s` holds when pin `p` is high at every
`adcRead` event of the trace `evs` started from pin state `s`. -/
def highDuringReads (p : Nat) : List Ev → (Nat → Bool) → Bool
  | [], _ => true
  | Ev.write q b :: evs, s =>
      highDuringReads p evs (fun r => if r = q then b else s r)
  | Ev.wait _ :: evs, s => highDuringReads p evs s
  | Ev.adcRead :: evs, s => s p && highDuringReads p evs s

/-- An ADC stream delivering the three readings `a`, `b`, `c`. -/
def adc3 (a b c : Nat) : Nat → Nat := fun i => [a, b, c].getD i 0

/-- A wake cycle on which `checkAction()` is false. -/
def quietCycle : CycleIn := ⟨false, fun _ => 0, 0, 0⟩

/-- A wake cycle on which `checkAction()` is true. -/
def activeCycle : CycleIn := ⟨true, fun _ => 0, 300, 20⟩

/-- Claim C2: the event classification is true iff the measurement
strictly exceeds the threshold; equality is not an event. -/
theorem classify_strict :
    (∀ m t : Nat, classify m t = true ↔ m > t) ∧
    classify 30 30 = false ∧ classify 31 30 = true := by
  refine ⟨fun m t => ?_, by decide, by decide⟩
  simp [classify]

/-- Claim C1: the payload built in the transmit cycle is exactly the
7-byte sequence flag byte, voltage little-endian, measurement
little-endian, threshold byte, temperature byte; the transmit cycle
builds it from the cycle's own classification, and the spec's concrete
instance evaluates as stated. -/
theorem payload_layout :
    (∀ (flag : Bool) (vol measure threshold temp : Nat),
      buildData flag vol measure threshold temp =
        [if flag then 0xFF else 0x00,
         vol &&& 0xFF, (vol >>> 8) &&& 0xFF,
         measure &&& 0xFF, (measure >>> 8) &&& 0xFF,
         threshold % 256, temp % 256]) ∧
    (∀ (adc : Nat → Nat) (vol temp fc : Nat),
      (loopStep ⟨true, adc, vol, temp⟩ fc).2.tx =
        some (buildData (classify (letterbox.checkLetter adc).2
          letterbox.THRESHOLD) vol (letterbox.checkLetter adc).2
          letterbox.THRESHOLD temp, fc)) ∧
    buildData true 300 45 30 20 = [0xFF, 0x2C, 0x01, 0x2D, 0x00, 30, 20] := by
  refine ⟨fun flag vol measure threshold temp => ?_,
    fun adc vol temp fc => rfl, by decide⟩
  have hff : (0xFF : Nat) = 2 ^ 8 - 1 := by norm_num
  simp only [hff, Nat.and_pow_two_sub_one_eq_mod, Nat.shiftRight_eq_div_pow]
  rfl

/-- Claim C6: byte 5 of the payload is the threshold reduced mod 256;
a threshold of 300 encodes as 44. -/
theorem threshold_byte_truncated :
    (∀ (flag : Bool) (vol measure threshold temp : Nat),
      (buildData flag vol measure threshold temp).getD 5 0 = threshold % 256) ∧
    (buildData true 0 0 300 0).getD 5 0 = 44 :=
  ⟨fun _ _ _ _ _ => rfl, by decide⟩

/-- Claim C7 counterexample: the deployed sampler's trace is NOT
"pins high, one 25 ms settle delay, then the 3 readings separated by
25 ms delays": an extra 25 ms delay precedes the first reading. -/
theorem settle_once_fails_deployed :
    ¬ ((letterbox.checkLetter (fun _ => 0)).1 =
      [Ev.write irled true, Ev.write irdiode true, Ev.wait 25, Ev.adcRead,
       Ev.wait 25, Ev.adcRead, Ev.wait 25, Ev.adcRead,
       Ev.write irled false, Ev.write irdiode false]) := by
  decide

/-- Claim C7 amended: after driving both pins high the calibration
sampler performs exactly one 15 ms delay before the first reading and
one between consecutive readings; the deployed sampler performs a 25 ms
settle delay plus a further 25 ms delay before the first reading (50 ms
in total) and one 25 ms delay between consecutive readings; both then
drive the pins low. -/
theorem sampler_trace_spec :
    (∀ adc : Nat → Nat, (calibrate.checkLetter adc).1 =
      [Ev.write irled true, Ev.write irdiode true,
       Ev.wait 15, Ev.adcRead, Ev.wait 15, Ev.adcRead, Ev.wait 15, Ev.adcRead,
       Ev.write irled false, Ev.write irdiode false]) ∧
    (∀ adc : Nat → Nat, (letterbox.checkLetter adc).1 =
      [Ev.write irled true, Ev.write irdiode true, Ev.wait 25,
       Ev.wait 25, Ev.adcRead, Ev.wait 25, Ev.adcRead, Ev.wait 25, Ev.adcRead,
       Ev.write irled false, Ev.write irdiode false]) :=
  ⟨fun _ => rfl, fun _ => rfl⟩

/-- Claim C8: from any initial pin state, after either sampler's trace
the emitter and detector-power pins are low and every other pin is
unchanged (so from the pins-low state the call has no persistent
effect), and both pins are high at every ADC read of the trace. -/
theorem sampler_pin_effects :
    (∀ (adc : Nat → Nat) (s : Nat → Bool) (p : Nat),
      runEvs (calibrate.checkLetter adc).1 s p =
        if p = irled ∨ p = irdiode then false else s p) ∧
    (∀ (adc : Nat → Nat) (s : Nat → Bool) (p : Nat),
      runEvs (letterbox.checkLetter adc).1 s p =
        if p = irled ∨ p = irdiode then false else s p) ∧
    (∀ (adc : Nat → Nat) (s : Nat → Bool),
      highDuringReads irled (calibrate.checkLetter adc).1 s = true ∧
      highDuringReads irdiode (calibrate.checkLetter adc).1 s = true ∧
      highDuringReads irled (letterbox.checkLetter adc).1 s = true ∧
      highDuringReads irdiode (letterbox.checkLetter adc).1 s = true) := by
  refine ⟨fun adc s p => ?_, fun adc s p => ?_,
    fun adc s => ⟨rfl, rfl, rfl, rfl⟩⟩ <;>
  · show (if p = irdiode then false
        else if p = irled then false
        else if p = irdiode then true
        else if p = irled then true
        else s p) = if p = irled ∨ p = irdiode then false else s p
    by_cases h3 : p = irled <;> by_cases h7 : p = irdiode <;>
      simp [h3, h7]

/-- Claim C5: a wake cycle whose action check is false performs no
sampling, no transmit and leaves the frame counter unchanged; in a run
of three quiet wakes followed by an action wake, sampling and the single
transmit happen exactly once, on the fourth wake, and the counter ends
at 1. -/
theorem skip_cycle_spec :
    (∀ (adc : Nat → Nat) (vol temp fc : Nat),
      loopStep ⟨false, adc, vol, temp⟩ fc = (fc, ⟨none, []⟩)) ∧
    ((runCycles [quietCycle, quietCycle, quietCycle, activeCycle] 0).2.map
      (fun o => o.tx.isSome) = [false, false, false, true]) ∧
    ((runCycles [quietCycle, quietCycle, quietCycle, activeCycle] 0).2.map
      (fun o => o.evs.isEmpty) = [true, true, true, false]) ∧
    (runCycles [quietCycle, quietCycle, quietCycle, activeCycle] 0).1 = 1 :=
  ⟨fun _ _ _ _ => rfl, by decide, by decide, by decide⟩

/-- Running the deployed loop from any 16-bit frame counter value: the
final counter is the start plus the number of action cycles, mod 65536,
and the counter values handed to successive transmit calls are
consecutive from the start value. -/
theorem runCycles_fc (cs : List CycleIn) (fc : Nat) (h : fc < 65536) :
    (runCycles cs fc).1 =
      (fc + cs.countP (fun c => c.actionDue)) % 65536 ∧
    ((runCycles cs fc).2.filterMap (fun o => o.tx)).map Prod.snd =
      (List.range (cs.countP (fun c => c.actionDue))).map
        (fun i => (fc + i) % 65536) := by
  induction cs generalizing fc with
  | nil => simp [runCycles, Nat.mod_eq_of_lt h]
  | cons c cs ih =>
    have hlt : (fc + 1) % 65536 < 65536 := Nat.mod_lt _ (by norm_num)
    by_cases hc : c.actionDue
    · have hstep : loopStep c fc =
          ((fc + 1) % 65536,
           ⟨some (txData c.adc c.vol c.temp, fc),
            (letterbox.checkLetter c.adc).1⟩) := by
        simp [loopStep, hc]
      obtain ⟨ih1, ih2⟩ := ih ((fc + 1) % 65536) hlt
      have hfun : ∀ i : Nat,
          ((fc + 1) % 65536 + i) % 65536 = (fc + (i + 1)) % 65536 := by
        intro i; omega
      simp only [hfun] at ih2
      refine ⟨?_, ?_⟩
      · simp only [runCycles, hstep, List.countP_cons, hc, if_pos]
        rw [ih1]
        omega
      · simp only [runCycles, hstep, List.countP_cons, hc, if_pos,
          List.filterMap_cons, List.map_cons, ih2]
        rw [List.range_succ_eq_map, List.map_cons, List.map_map]
        refine congrArg₂ _ (by omega) ?_
        refine List.map_congr_left fun i _ => ?_
        simp [Function.comp]
    · have hstep : loopStep c fc = (fc, ⟨none, []⟩) := by
        simp [loopStep, hc]
      obtain ⟨ih1, ih2⟩ := ih fc h
      refine ⟨?_, ?_⟩
      · simp only [runCycles, hstep, List.countP_cons, hc]
        simpa using ih1
      · simp only [runCycles, hstep, List.countP_cons, hc,
          List.filterMap_cons]
        simpa using ih2

/-- Claim C4: the frame counter starts at 0, each action cycle
increments it by exactly 1 (so the values used by successive transmits
are 0, 1, 2, ... with no decrease and no skip), all arithmetic is
16-bit so 0xFFFF wraps to 0, and nothing else changes it. -/
theorem frame_counter_spec :
    Frame_Counter_Tx_init = 0 ∧
    (∀ cs : List CycleIn,
      (runCycles cs Frame_Counter_Tx_init).1 =
        cs.countP (fun c => c.actionDue) % 65536 ∧
      ((runCycles cs Frame_Counter_Tx_init).2.filterMap
          (fun o => o.tx)).map Prod.snd =
        (List.range (cs.countP (fun c => c.actionDue))).map
          (fun i => i % 65536)) ∧
    (loopStep ⟨true, fun _ => 0, 0, 0⟩ 0xFFFF).1 = 0 := by
  refine ⟨rfl, fun cs => ?_, by decide⟩
  obtain ⟨h1, h2⟩ := runCycles_fc cs 0 (by norm_num)
  exact ⟨by simpa using h1, by simpa using h2⟩

/-- Claim C3: for ADC readings in the 10-bit range, the sampler returns
the truncated integer mean of the three readings: the deployed
`checkLetter` returns `(a+b+c)/3`, and the calibration `checkLetter`
classifies exactly that value against its threshold. -/
theorem sampler_mean_truncated (a b c : Nat)
    (ha : a ≤ 1023) (hb : b ≤ 1023) (hc : c ≤ 1023) :
    (letterbox.checkLetter (adc3 a b c)).2 = (a + b + c) / 3 ∧
    (calibrate.checkLetter (adc3 a b c)).2 =
      classify ((a + b + c) / 3) calibrate.THRESHOLD := by
  have h1 : (letterbox.checkLetter (adc3 a b c)).2 =
      ((((0 + a) % 65536 + b) % 65536 + c) % 65536) / 3 := rfl
  have h2 : (calibrate.checkLetter (adc3 a b c)).2 =
      classify (((((0 + a) % 65536 + b) % 65536 + c) % 65536) / 3)
        calibrate.THRESHOLD := rfl
  have h3 : (((0 + a) % 65536 + b) % 65536 + c) % 65536 = a + b + c := by
    omega
  rw [h1, h2, h3]
  exact ⟨rfl, rfl⟩

/-- Claim C3 witness: readings 10, 11, 12 are in ADC range and the
deployed sampler returns 11; readings 10, 10, 11 return 10. -/
theorem sampler_mean_truncated_witness :
    ((10 : Nat) ≤ 1023 ∧ (11 : Nat) ≤ 1023 ∧ (12 : Nat) ≤ 1023 ∧
      (letterbox.checkLetter (adc3 10 11 12)).2 = 11) ∧
    (letterbox.checkLetter (adc3 10 10 11)).2 = 10 :=
  ⟨⟨by decide, by decide, by decide,
    ((sampler_mean_truncated 10 11 12 (by decide) (by decide)
      (by decide)).1).trans (by decide)⟩,
   ((sampler_mean_truncated 10 10 11 (by decide) (by decide)
      (by decide)).1).trans (by decide)⟩

/-- Claim C10: for ADC readings in the 10-bit range the 16-bit
accumulator's partial sums stay at or below 3069, so no modular wrap
occurs: the accumulated sum is the exact sum and the returned
measurement is the exact truncated mean. -/
theorem sampler_sum_no_wrap (a b c : Nat)
    (ha : a ≤ 1023) (hb : b ≤ 1023) (hc : c ≤ 1023) :
    (a ≤ 3069 ∧ a + b ≤ 3069 ∧ a + b + c ≤ 3069) ∧
    (sampleSteps 25 (adc3 a b c) 3 0 0).2 = a + b + c ∧
    (letterbox.checkLetter (adc3 a b c)).2 = (a + b + c) / 3 := by
  have h1 : (sampleSteps 25 (adc3 a b c) 3 0 0).2 =
      (((0 + a) % 65536 + b) % 65536 + c) % 65536 := rfl
  have h2 : (letterbox.checkLetter (adc3 a b c)).2 =
      ((((0 + a) % 65536 + b) % 65536 + c) % 65536) / 3 := rfl
  refine ⟨⟨by omega, by omega, by omega⟩, ?_, ?_⟩
  · rw [h1]; omega
  · rw [h2]; omega

/-- Claim C10 witness: three maximal readings 1023 sum to exactly 3069
with no wrap, and the returned measurement is 1023. -/
theorem sampler_sum_no_wrap_witness :
    (1023 : Nat) ≤ 1023 ∧
    (sampleSteps 25 (adc3 1023 1023 1023) 3 0 0).2 = 3069 ∧
    (letterbox.checkLetter (adc3 1023 1023 1023)).2 = 1023 := by
  have h := sampler_sum_no_wrap 1023 1023 1023 (by decide) (by decide)
    (by decide)
  exact ⟨by decide, h.2.1.trans (by decide), h.2.2.trans (by decide)⟩

/-- Claim C9: in every payload the deployed loop transmits, the flag
byte is 0xFF exactly when the 16-bit little-endian value in bytes 3-4 is
strictly above the threshold: flag and measurement bytes come from the
same measurement of the same wake cycle. -/
theorem payload_flag_consistent (adc : Nat → Nat) (vol temp : Nat) :
    (txData adc vol temp).getD 0 0 = 0xFF ↔
      (txData adc vol temp).getD 3 0 +
        256 * (txData adc vol temp).getD 4 0 > letterbox.THRESHOLD := by
  have hm : (letterbox.checkLetter adc).2 < 65536 := by
    have h1 : (letterbox.checkLetter adc).2 =
        ((((0 + adc 0) % 65536 + adc 1) % 65536 + adc 2) % 65536) / 3 := rfl
    rw [h1]; omega
  have h0 : (txData adc vol temp).getD 0 0 =
      if classify (letterbox.checkLetter adc).2 letterbox.THRESHOLD
      then 0xFF else 0x00 := rfl
  have h3 : (txData adc vol temp).getD 3 0 =
      (letterbox.checkLetter adc).2 % 256 := rfl
  have h4 : (txData adc vol temp).getD 4 0 =
      (letterbox.checkLetter adc).2 / 256 % 256 := rfl
  rw [h0, h3, h4]
  have hrec : (letterbox.checkLetter adc).2 % 256 +
      256 * ((letterbox.checkLetter adc).2 / 256 % 256) =
      (letterbox.checkLetter adc).2 := by omega
  rw [hrec]
  rcases hcl : classify (letterbox.checkLetter adc).2 letterbox.THRESHOLD with _ | _
  · simp only [classify, decide_eq_false_iff_not] at hcl
    simp [hcl]
  · simp only [classify, decide_eq_true_eq] at hcl
    simp [hcl]
